import Mathlib

/-!
Verification development for the heart-rate monitoring application
(`project2.py`).  The simulator core — `MonitorState`, `log_event`,
`run_simulation`'s per-tick step, `start_monitoring`, `stop_monitoring` —
is embedded shallowly: Python floats become rationals, the random draws of
each tick become explicit parameters, and the asynchronous loop becomes a
recursion over a list of per-tick inputs.
-/

/-- One entry of `MonitorState.logs`, holding time, message and type strings. -/
structure LogEntry where
  time : String
  message : String
  type : String
deriving DecidableEq, Repr

/-- One entry of `monitor_state.history_sessions` (the dict built in
`stop_monitoring`). -/
structure SessionSummary where
  date : String
  activity : String
  duration : String
  avg_bpm : ℚ
  max_bpm : ℤ
  min_bpm : ℤ
deriving DecidableEq, Repr

/-- The mutable application state (`class MonitorState.__init__`).  The UI
callback `on_update` carries no data and is omitted. -/
structure MonitorState where
  name : String
  height : String
  weight : String
  gender : String
  age : String
  activity : String
  heart_rate : ℚ
  history : List (ℕ × ℚ)
  logs : List LogEntry
  time_counter : ℕ
  heart_scale : ℚ
  min_bpm : ℚ
  max_bpm : ℚ
  is_monitoring : Bool
  total_time : ℕ
  avg_bpm : ℚ
  session_readings : List ℚ
  history_sessions : List SessionSummary
deriving DecidableEq

/-- The fresh state built by `MonitorState.__init__` (module-level
`monitor_state = MonitorState()`). -/
def initState : MonitorState where
  name := ""
  height := ""
  weight := ""
  gender := ""
  age := ""
  activity := ""
  heart_rate := 72
  history := []
  logs := []
  time_counter := 0
  heart_scale := 1
  min_bpm := 999
  max_bpm := 0
  is_monitoring := false
  total_time := 0
  avg_bpm := 0
  session_readings := []
  history_sessions := []

/-- The body of `MonitorState.log_event` on the `logs` list: skip when the new
entry duplicates the head in both message and type, otherwise insert at
index 0 and pop the last entry when the length exceeds 100. -/
def pushLog (now message ty : String) (logs : List LogEntry) : List LogEntry :=
  match logs with
  | e :: rest =>
    if e.message = message ∧ e.type = ty then e :: rest
    else
      let inserted : List LogEntry := ⟨now, message, ty⟩ :: e :: rest
      if inserted.length > 100 then inserted.dropLast else inserted
  | [] =>
    let inserted : List LogEntry := [⟨now, message, ty⟩]
    if inserted.length > 100 then inserted.dropLast else inserted

/-- State-transformer form of `MonitorState.log_event` (the timestamp string is
passed in instead of read from the clock). -/
def log_event (now message ty : String) (s : MonitorState) : MonitorState :=
  { s with logs := pushLog now message ty s.logs }

/-- An activity profile tuple
`(Min Base HR, Max Base HR, Momentum, Random Fluctuation Size)`. -/
structure Profile where
  base_hr : ℚ
  target_range : ℚ
  momentum : ℚ
  fluctuation : ℚ
deriving DecidableEq

/-- The `activity_profiles` dict of `run_simulation`, with
`dict.get`'s fallback `(70, 100, 0.8, 0.8)` for unknown keys. -/
def activity_profiles (a : String) : Profile :=
  if a = "Resting" then ⟨60, 80, 9/10, 1/2⟩
  else if a = "Walking" then ⟨90, 110, 7/10, 1⟩
  else if a = "Running" then ⟨130, 160, 4/10, 2⟩
  else if a = "Gym" then ⟨110, 140, 5/10, 3/2⟩
  else if a = "Swimming" then ⟨100, 130, 6/10, 6/5⟩
  else ⟨70, 100, 4/5, 4/5⟩

/-- Python's `round(x, 2)`: round to the nearest multiple of 1/100. -/
def round2 (x : ℚ) : ℚ := (round (x * 100) : ℤ) / 100

/-- Python's `round(x, 1)`: round to the nearest multiple of 1/10. -/
def round1 (x : ℚ) : ℚ := (round (x * 10) : ℤ) / 10

/-- Python's `int(x)` on a float: truncation toward zero. -/
def pyInt (x : ℚ) : ℤ := if 0 ≤ x then ⌊x⌋ else ⌈x⌉

/-- The random draws consumed by one iteration of the `run_simulation`
loop, plus the wall-clock string a boundary alert would be stamped with. -/
structure Draws where
  target_hr : ℚ
  random_step : ℚ
  redraw_low : ℚ
  redraw_high : ℚ
  now : String
deriving DecidableEq

/-- The ranges `random.uniform` guarantees for each draw of a step:
`uniform(a, b)` returns a value in `[a, b]`. -/
def ValidDraws (p : Profile) (d : Draws) : Prop :=
  p.base_hr ≤ d.target_hr ∧ d.target_hr ≤ p.target_range ∧
  -p.fluctuation ≤ d.random_step ∧ d.random_step ≤ p.fluctuation ∧
  40 ≤ d.redraw_low ∧ d.redraw_low ≤ 45 ∧
  180 ≤ d.redraw_high ∧ d.redraw_high ≤ 190

instance (p : Profile) (d : Draws) : Decidable (ValidDraws p d) := by
  unfold ValidDraws; infer_instance

/-- One iteration of the `while monitor_state.is_monitoring` loop body of
`run_simulation`, in source order: momentum update, round to 2 decimals,
boundary clamp with ALERT log, min/max/avg session stats, counters,
history append with FIFO eviction beyond 60, heartbeat scale toggle. -/
def stepState (p : Profile) (d : Draws) (s : MonitorState) : MonitorState :=
  let u := round2 (s.heart_rate + (d.target_hr - s.heart_rate) * (1 - p.momentum) + d.random_step)
  let hr := if u < 40 then d.redraw_low else if u > 190 then d.redraw_high else u
  let logs1 :=
    if u < 40 then
      pushLog d.now ("Low HR boundary hit: " ++ toString (pyInt hr) ++ " bpm") "ALERT" s.logs
    else if u > 190 then
      pushLog d.now ("High HR boundary hit: " ++ toString (pyInt hr) ++ " bpm") "ALERT" s.logs
    else s.logs
  let readings := s.session_readings ++ [hr]
  let avgB := if readings.isEmpty then s.avg_bpm else readings.sum / (readings.length : ℚ)
  let tc := s.time_counter + 1
  let hist0 := s.history ++ [(tc, hr)]
  let hist := if hist0.length > 60 then hist0.tail else hist0
  { s with
    heart_rate := hr
    logs := logs1
    min_bpm := min s.min_bpm hr
    max_bpm := max s.max_bpm hr
    session_readings := readings
    avg_bpm := avgB
    time_counter := tc
    total_time := s.total_time + 1
    history := hist
    heart_scale := if s.heart_scale = 1 then 6/5 else 1 }

/-- Iterating the loop body over a list of per-tick draws (the loop runs
as long as `is_monitoring`, which no step modifies). -/
def runSteps (p : Profile) (s : MonitorState) : List Draws → MonitorState
  | [] => s
  | d :: ds => runSteps p (stepState p d s) ds

/-- What one tick of the loop consumes: either the step's random draws, or
an unexpected exception carrying its message. -/
inductive StepInput where
  | ok (d : Draws)
  | fault (msg : String)
deriving DecidableEq

/-- The `run_simulation` loop with its `try/except` boundary: while
`is_monitoring`, consume one input per tick; a `fault` input is caught,
produces the `"Simulation Error: ..."` diagnostic, and ends the loop.
Returns the final state and the diagnostic, if any. -/
def runSimulation (p : Profile) (s : MonitorState) : List StepInput → MonitorState × Option String
  | [] => (s, none)
  | i :: rest =>
    if s.is_monitoring then
      match i with
      | .ok d => runSimulation p (stepState p d s) rest
      | .fault msg => (s, some ("Simulation Error: " ++ msg))
    else (s, none)

/-- The full `run_simulation`: the profile is captured once from
`monitor_state.activity` before the loop starts. -/
def run_simulation (s : MonitorState) (inputs : List StepInput) : MonitorState × Option String :=
  runSimulation (activity_profiles s.activity) s inputs

/-- Embedding of `start_monitoring`: guarded by `if monitor_state.activity:` (string
truthiness), resets the session fields and sets `is_monitoring`. -/
def start_monitoring (s : MonitorState) : MonitorState :=
  if s.activity = "" then s
  else
    { s with
      is_monitoring := true
      min_bpm := 999
      max_bpm := 0
      avg_bpm := 0
      total_time := 0
      session_readings := []
      history := []
      time_counter := 0
      logs := [] }

/-- Embedding of `start_monitoring` together with its `page.run_task(run_simulation)`
call: the second component counts the stepping tasks that have been
launched; the guard is the same `if monitor_state.activity:`. -/
def startMonitoringTasks (s : MonitorState) (tasks : ℕ) : MonitorState × ℕ :=
  if s.activity = "" then (s, tasks) else (start_monitoring s, tasks + 1)

/-- Python's zero-padded two-digit formatting for the seconds field (always called with
`n < 60`). -/
def formatSec2 (n : ℕ) : String := if n < 10 then ("0" ++ toString n) else toString n

/-- The session-summary dict built inside `stop_monitoring` (the `date`
timestamp string is passed in instead of read from the clock). -/
def mkSessionSummary (date : String) (s : MonitorState) : SessionSummary where
  date := date
  activity := s.activity
  duration := toString (s.total_time / 60) ++ ":" ++ formatSec2 (s.total_time % 60)
  avg_bpm := round1 s.avg_bpm
  max_bpm := pyInt s.max_bpm
  min_bpm := pyInt s.min_bpm

/-- Embedding of `stop_monitoring`: clear `is_monitoring`, then append a summary to
`history_sessions` when `session_readings` is non-empty. -/
def stop_monitoring (date : String) (s : MonitorState) : MonitorState :=
  let s1 := { s with is_monitoring := false }
  if s.session_readings.isEmpty then s1
  else { s1 with history_sessions := s1.history_sessions ++ [mkSessionSummary date s] }

/-- The `(time_counter, heart_rate)` pairs appended to `history` across a
run, before any eviction. -/
def histPairs (p : Profile) (s : MonitorState) : List Draws → List (ℕ × ℚ)
  | [] => []
  | d :: ds => (s.time_counter + 1, (stepState p d s).heart_rate) :: histPairs p (stepState p d s) ds

/-- The de-dup target of `log_event`: does the new entry duplicate the
current head in both message and type? -/
def dupHead (message ty : String) (logs : List LogEntry) : Prop :=
  match logs with
  | e :: _ => e.message = message ∧ e.type = ty
  | [] => False

instance (message ty : String) (logs : List LogEntry) : Decidable (dupHead message ty logs) := by
  unfold dupHead; split <;> infer_instance

/-- No adjacent duplicate at the head of the log list: the entries at
positions 0 and 1 (when both exist) differ in message or type. -/
def headsDistinct (logs : List LogEntry) : Prop :=
  match logs with
  | a :: b :: _ => ¬(a.message = b.message ∧ a.type = b.type)
  | _ => True

instance (logs : List LogEntry) : Decidable (headsDistinct logs) := by
  unfold headsDistinct; split <;> infer_instance

/-- The pre-clamp heart rate of a step: the momentum update followed by
`round(x, 2)`. -/
def preHr (p : Profile) (d : Draws) (hr : ℚ) : ℚ :=
  round2 (hr + (d.target_hr - hr) * (1 - p.momentum) + d.random_step)

/-- The boundary-enforcement stage of a step: redraw from the draw's
`uniform(40, 45)` value below 40, from its `uniform(180, 190)` value above
190, and keep the value otherwise. -/
def clampedHr (d : Draws) (u : ℚ) : ℚ :=
  if u < 40 then d.redraw_low else if u > 190 then d.redraw_high else u

/-- Sample draws for the Resting profile. -/
def dRest : Draws := ⟨70, 0, 42, 185, ""⟩

/-- A freshly started session on the Resting profile. -/
def sRest : MonitorState := start_monitoring { initState with activity := "Resting" }

/-- A state mid-session: readings recorded, 65 seconds elapsed. -/
def sStop : MonitorState :=
  { initState with
    activity := "Running"
    is_monitoring := true
    session_readings := [100]
    total_time := 65
    avg_bpm := 100
    max_bpm := 150
    min_bpm := 80 }

/-- A state that is already monitoring mid-session, with one stepping task
active. -/
def c8State : MonitorState :=
  { initState with
    activity := "Running"
    is_monitoring := true
    session_readings := [100]
    total_time := 5 }

lemma stepState_heart_rate (p : Profile) (d : Draws) (s : MonitorState) :
    (stepState p d s).heart_rate = clampedHr d (preHr p d s.heart_rate) := rfl

lemma stepState_min_bpm (p : Profile) (d : Draws) (s : MonitorState) :
    (stepState p d s).min_bpm = min s.min_bpm (stepState p d s).heart_rate := rfl

lemma stepState_max_bpm (p : Profile) (d : Draws) (s : MonitorState) :
    (stepState p d s).max_bpm = max s.max_bpm (stepState p d s).heart_rate := rfl

lemma stepState_session_readings (p : Profile) (d : Draws) (s : MonitorState) :
    (stepState p d s).session_readings = s.session_readings ++ [(stepState p d s).heart_rate] := rfl

lemma stepState_time_counter (p : Profile) (d : Draws) (s : MonitorState) :
    (stepState p d s).time_counter = s.time_counter + 1 := rfl

lemma stepState_total_time (p : Profile) (d : Draws) (s : MonitorState) :
    (stepState p d s).total_time = s.total_time + 1 := rfl

lemma stepState_is_monitoring (p : Profile) (d : Draws) (s : MonitorState) :
    (stepState p d s).is_monitoring = s.is_monitoring := rfl

lemma stepState_history (p : Profile) (d : Draws) (s : MonitorState) :
    (stepState p d s).history =
      (let h0 := s.history ++ [(s.time_counter + 1, (stepState p d s).heart_rate)]
       if h0.length > 60 then h0.tail else h0) := rfl

lemma stepState_avg_bpm (p : Profile) (d : Draws) (s : MonitorState) :
    (stepState p d s).avg_bpm =
      (stepState p d s).session_readings.sum / ((stepState p d s).session_readings.length : ℚ) := by
  show (if (s.session_readings ++ [_]).isEmpty then _ else _) = _
  rw [if_neg]
  · rfl
  · simp

lemma clampedHr_bounds (d : Draws) (u : ℚ) (h1 : 40 ≤ d.redraw_low) (h2 : d.redraw_low ≤ 45)
    (h3 : 180 ≤ d.redraw_high) (h4 : d.redraw_high ≤ 190) :
    40 ≤ clampedHr d u ∧ clampedHr d u ≤ 190 := by
  unfold clampedHr
  split_ifs <;> constructor <;> linarith

lemma stepState_heart_rate_bounds (p : Profile) (d : Draws) (s : MonitorState)
    (h : ValidDraws p d) :
    40 ≤ (stepState p d s).heart_rate ∧ (stepState p d s).heart_rate ≤ 190 := by
  unfold ValidDraws at h
  rw [stepState_heart_rate]
  exact clampedHr_bounds d _ h.2.2.2.2.1 h.2.2.2.2.2.1 h.2.2.2.2.2.2.1 h.2.2.2.2.2.2.2

/-- C1: for every step of the simulation loop, whatever the previous state
and whichever values the random draws take within their `uniform` ranges,
the stored heart rate after the boundary-enforcement stage lies within
[40, 190]: a smoothed-and-rounded value below 40 is replaced by the
`uniform(40, 45)` draw and one above 190 by the `uniform(180, 190)` draw. -/
theorem c1_clamp_invariant (p : Profile) (d : Draws) (s : MonitorState) (h : ValidDraws p d) :
    40 ≤ (stepState p d s).heart_rate ∧ (stepState p d s).heart_rate ≤ 190 :=
  stepState_heart_rate_bounds p d s h

/-- Witness for C1 at the Resting profile, `target_hr = 70`, zero noise,
redraws 42 and 185, from the initial state. -/
theorem c1_clamp_invariant_witness :
    ValidDraws (activity_profiles ("Resting")) ⟨70, 0, 42, 185, ""⟩ ∧
      (40 ≤ (stepState (activity_profiles ("Resting")) ⟨70, 0, 42, 185, ""⟩ initState).heart_rate ∧
        (stepState (activity_profiles ("Resting")) ⟨70, 0, 42, 185, ""⟩ initState).heart_rate ≤ 190) :=
  ⟨by norm_num [ValidDraws, activity_profiles],
    c1_clamp_invariant (activity_profiles ("Resting")) ⟨70, 0, 42, 185, ""⟩ initState
      (by norm_num [ValidDraws, activity_profiles])⟩

/-- C2: each step updates the signal by exactly
`heartRate + (targetHr - heartRate) * (1 - momentum) + noise`, rounds the
result to 2 decimal places, and only then applies the clamp stage; and for
fixed draws the stepped heart rate is a deterministic function of the
previous heart rate and the profile. -/
theorem c2_step_formula (p : Profile) (d : Draws) (s t : MonitorState) :
    (stepState p d s).heart_rate =
      clampedHr d (round2 (s.heart_rate + (d.target_hr - s.heart_rate) * (1 - p.momentum) + d.random_step))
    ∧ (s.heart_rate = t.heart_rate → (stepState p d s).heart_rate = (stepState p d t).heart_rate) := by
  constructor
  · rfl
  · intro h
    rw [stepState_heart_rate, stepState_heart_rate, preHr, preHr, h]

/-- Witness for C2 at the Resting profile from the initial state. -/
theorem c2_step_formula_witness :
    (stepState (activity_profiles ("Resting")) ⟨70, 0, 42, 185, ""⟩ initState).heart_rate =
      clampedHr ⟨70, 0, 42, 185, ""⟩
        (round2 (initState.heart_rate +
          (70 - initState.heart_rate) * (1 - (activity_profiles ("Resting")).momentum) + 0))
    ∧ (stepState (activity_profiles ("Resting")) ⟨70, 0, 42, 185, ""⟩ initState).heart_rate =
        (stepState (activity_profiles ("Resting")) ⟨70, 0, 42, 185, ""⟩ initState).heart_rate :=
  ⟨(c2_step_formula (activity_profiles ("Resting")) ⟨70, 0, 42, 185, ""⟩ initState initState).1,
    (c2_step_formula (activity_profiles ("Resting")) ⟨70, 0, 42, 185, ""⟩ initState initState).2 rfl⟩

lemma runSteps_minmax (p : Profile) (ds : List Draws) :
    ∀ s : MonitorState, (∀ r ∈ s.session_readings, s.min_bpm ≤ r ∧ r ≤ s.max_bpm) →
      ∀ r ∈ (runSteps p s ds).session_readings,
        (runSteps p s ds).min_bpm ≤ r ∧ r ≤ (runSteps p s ds).max_bpm := by
  induction ds with
  | nil => intro s h; exact h
  | cons d ds ih =>
    intro s h
    simp only [runSteps]
    apply ih
    intro r hr
    rw [stepState_session_readings] at hr
    rw [stepState_min_bpm, stepState_max_bpm]
    rcases List.mem_append.1 hr with h1 | h1
    · obtain ⟨hl, hu⟩ := h r h1
      exact ⟨le_trans (min_le_left _ _) hl, le_trans hu (le_max_left _ _)⟩
    · rw [List.mem_singleton] at h1
      subst h1
      exact ⟨min_le_right _ _, le_max_right _ _⟩

lemma runSteps_avg (p : Profile) (ds : List Draws) :
    ∀ s : MonitorState,
      (s.session_readings ≠ [] →
        s.avg_bpm = s.session_readings.sum / (s.session_readings.length : ℚ)) →
      ((runSteps p s ds).session_readings ≠ [] →
        (runSteps p s ds).avg_bpm =
          (runSteps p s ds).session_readings.sum / ((runSteps p s ds).session_readings.length : ℚ)) := by
  induction ds with
  | nil => intro s h; exact h
  | cons d ds ih =>
    intro s _
    simp only [runSteps]
    apply ih
    intro _
    exact stepState_avg_bpm p d s

/-- C3: in every session, after every number of steps from session start,
`min_bpm` is a lower bound and `max_bpm` an upper bound for every recorded
sample, `avg_bpm` is exactly the arithmetic mean of `session_readings`
(exact over ℚ, hence within any floating tolerance), and with the sentinels
`min_bpm = 999`, `max_bpm = 0` the first accepted sample becomes both the
minimum and the maximum. -/
theorem c3_session_stats (p : Profile) (s : MonitorState) (ds : List Draws)
    (hmin : s.min_bpm = 999) (hmax : s.max_bpm = 0) (hread : s.session_readings = []) :
    (∀ r ∈ (runSteps p s ds).session_readings,
        (runSteps p s ds).min_bpm ≤ r ∧ r ≤ (runSteps p s ds).max_bpm)
    ∧ ((runSteps p s ds).session_readings ≠ [] →
        (runSteps p s ds).avg_bpm =
          (runSteps p s ds).session_readings.sum / ((runSteps p s ds).session_readings.length : ℚ))
    ∧ (∀ d : Draws, ValidDraws p d →
        (stepState p d s).min_bpm = (stepState p d s).heart_rate ∧
        (stepState p d s).max_bpm = (stepState p d s).heart_rate ∧
        (stepState p d s).session_readings = [(stepState p d s).heart_rate]) := by
  refine ⟨?_, ?_, ?_⟩
  · apply runSteps_minmax
    intro r hr
    rw [hread] at hr
    exact absurd hr (List.not_mem_nil r)
  · apply runSteps_avg
    intro hne
    exact absurd hread hne
  · intro d hd
    obtain ⟨h40, h190⟩ := stepState_heart_rate_bounds p d s hd
    rw [stepState_min_bpm, stepState_max_bpm, stepState_session_readings, hmin, hmax, hread]
    refine ⟨min_eq_right (by linarith), max_eq_right (by linarith), rfl⟩

/-- Witness for C3: one Resting step from a freshly started session. -/
theorem c3_session_stats_witness :
    (stepState (activity_profiles ("Resting")) dRest sRest).min_bpm =
        (stepState (activity_profiles ("Resting")) dRest sRest).heart_rate ∧
      (stepState (activity_profiles ("Resting")) dRest sRest).max_bpm =
        (stepState (activity_profiles ("Resting")) dRest sRest).heart_rate ∧
      (stepState (activity_profiles ("Resting")) dRest sRest).session_readings =
        [(stepState (activity_profiles ("Resting")) dRest sRest).heart_rate] :=
  (c3_session_stats (activity_profiles ("Resting")) sRest [] rfl rfl rfl).2.2 dRest
    (by norm_num [ValidDraws, activity_profiles, dRest])

lemma stepState_history_eq (p : Profile) (d : Draws) (s : MonitorState) :
    (stepState p d s).history =
      if (s.history ++ [(s.time_counter + 1, (stepState p d s).heart_rate)]).length > 60
      then (s.history ++ [(s.time_counter + 1, (stepState p d s).heart_rate)]).tail
      else s.history ++ [(s.time_counter + 1, (stepState p d s).heart_rate)] := rfl

lemma histPairs_length (p : Profile) (ds : List Draws) :
    ∀ s : MonitorState, (histPairs p s ds).length = ds.length := by
  induction ds with
  | nil => intro s; rfl
  | cons d ds ih => intro s; simp only [histPairs, List.length_cons, ih]

lemma histPairs_map_fst (p : Profile) (ds : List Draws) :
    ∀ s : MonitorState,
      (histPairs p s ds).map Prod.fst = List.range' (s.time_counter + 1) ds.length := by
  induction ds with
  | nil => intro s; rfl
  | cons d ds ih =>
    intro s
    simp only [histPairs, List.map_cons, ih, stepState_time_counter, List.length_cons]
    rw [List.range'_succ]

lemma range'_drop (k : ℕ) : ∀ (a n : ℕ), (List.range' a n).drop k = List.range' (a + k) (n - k) := by
  induction k with
  | zero => intro a n; simp
  | succ k ih =>
    intro a n
    cases n with
    | zero => simp
    | succ m =>
      rw [List.range'_succ, List.drop_succ_cons, ih (a + 1) m]
      have h1 : a + 1 + k = a + (k + 1) := by omega
      have h2 : m - k = m + 1 - (k + 1) := by omega
      rw [h1, h2]

lemma runSteps_history_window (p : Profile) (ds : List Draws) :
    ∀ s : MonitorState, s.history.length ≤ 60 →
      (runSteps p s ds).history =
        (s.history ++ histPairs p s ds).drop (s.history.length + ds.length - 60) := by
  induction ds with
  | nil =>
    intro s h
    simp only [runSteps, histPairs, List.append_nil, List.length_nil, Nat.add_zero]
    have hz : s.history.length - 60 = 0 := by omega
    rw [hz, List.drop_zero]
  | cons d ds ih =>
    intro s h
    simp only [runSteps, histPairs]
    set pr : ℕ × ℚ := (s.time_counter + 1, (stepState p d s).heart_rate) with hpr
    set HP : List (ℕ × ℚ) := histPairs p (stepState p d s) ds with hHP
    have hXlen : (s.history ++ [pr]).length = s.history.length + 1 := by
      simp only [List.length_append, List.length_cons, List.length_nil]
    by_cases hlen : s.history.length + 1 > 60
    · have h60 : s.history.length = 60 := by omega
      have hstep : (stepState p d s).history = (s.history ++ [pr]).tail := by
        rw [stepState_history_eq, if_pos]
        rw [hXlen]; omega
      have hlen' : (stepState p d s).history.length ≤ 60 := by
        rw [hstep, List.length_tail, hXlen]; omega
      rw [ih _ hlen', hstep, List.length_tail, hXlen]
      have hidx : s.history.length + 1 - 1 + ds.length - 60 = ds.length := by omega
      rw [hidx, ← List.drop_one]
      have h1le : (1 : ℕ) ≤ (s.history ++ [pr]).length := by rw [hXlen]; omega
      rw [← List.drop_append_of_le_length h1le, List.drop_drop]
      rw [List.append_assoc, List.singleton_append]
      congr 1
      simp only [List.length_cons]
      omega
    · have hstep : (stepState p d s).history = s.history ++ [pr] := by
        rw [stepState_history_eq, if_neg]
        rw [hXlen]; omega
      have hlen' : (stepState p d s).history.length ≤ 60 := by
        rw [hstep, hXlen]; omega
      rw [ih _ hlen', hstep, hXlen]
      rw [List.append_assoc, List.singleton_append]
      congr 1
      simp only [List.length_cons]
      omega

/-- C4: from session start, `history` is a FIFO rolling window: each step
appends one `(tick, bpm)` pair at the back and evicts the oldest pair at
the front once the length would exceed 60; after `n` steps the length is
`min n 60`, the tick numbers are the consecutive run ending at `n`
(strictly increasing by 1), and the window is exactly the most recent
`min n 60` of all appended pairs. -/
theorem c4_history_window (p : Profile) (s : MonitorState) (ds : List Draws)
    (hh : s.history = []) (ht : s.time_counter = 0) :
    (runSteps p s ds).history.length = min ds.length 60
    ∧ (runSteps p s ds).history.map Prod.fst =
        List.range' (ds.length - min ds.length 60 + 1) (min ds.length 60)
    ∧ (runSteps p s ds).history = (histPairs p s ds).drop (ds.length - 60)
    ∧ (∀ (t : MonitorState) (d : Draws),
        (stepState p d t).history =
          if (t.history ++ [(t.time_counter + 1, (stepState p d t).heart_rate)]).length > 60
          then (t.history ++ [(t.time_counter + 1, (stepState p d t).heart_rate)]).tail
          else t.history ++ [(t.time_counter + 1, (stepState p d t).heart_rate)]) := by
  have hw := runSteps_history_window p ds s (by rw [hh]; simp)
  rw [hh] at hw
  simp only [List.nil_append, List.length_nil, Nat.zero_add] at hw
  refine ⟨?_, ?_, hw, fun t d => stepState_history_eq p d t⟩
  · rw [hw, List.length_drop, histPairs_length]
    omega
  · rw [hw, List.map_drop, histPairs_map_fst, ht, range'_drop]
    have h1 : 0 + 1 + (ds.length - 60) = ds.length - min ds.length 60 + 1 := by omega
    have h2 : ds.length - (ds.length - 60) = min ds.length 60 := by omega
    rw [h1, h2]

/-- Witness for C4: one Resting step from a freshly started session. -/
theorem c4_history_window_witness :
    (runSteps (activity_profiles ("Resting")) sRest [dRest]).history.length =
        min [dRest].length 60
    ∧ (runSteps (activity_profiles ("Resting")) sRest [dRest]).history.map Prod.fst =
        List.range' ([dRest].length - min [dRest].length 60 + 1) (min [dRest].length 60)
    ∧ (runSteps (activity_profiles ("Resting")) sRest [dRest]).history =
        (histPairs (activity_profiles ("Resting")) sRest [dRest]).drop ([dRest].length - 60) :=
  ⟨(c4_history_window (activity_profiles ("Resting")) sRest [dRest] rfl rfl).1,
    (c4_history_window (activity_profiles ("Resting")) sRest [dRest] rfl rfl).2.1,
    (c4_history_window (activity_profiles ("Resting")) sRest [dRest] rfl rfl).2.2.1⟩

lemma pushLog_eq (now msg ty : String) (l : List LogEntry) :
    pushLog now msg ty l =
      if dupHead msg ty l then l
      else if (⟨now, msg, ty⟩ :: l : List LogEntry).length > 100
        then (⟨now, msg, ty⟩ :: l : List LogEntry).dropLast
        else ⟨now, msg, ty⟩ :: l := by
  cases l with
  | nil => simp [pushLog, dupHead]
  | cons e rest =>
    by_cases hd : e.message = msg ∧ e.type = ty
    · simp [pushLog, dupHead, hd]
    · simp [pushLog, dupHead, hd]

lemma headsDistinct_dropLast (l : List LogEntry) (h : headsDistinct l) :
    headsDistinct l.dropLast := by
  match l with
  | [] => trivial
  | [a] => trivial
  | [a, b] => trivial
  | a :: b :: c :: t => exact h

lemma headsDistinct_cons (now msg ty : String) (l : List LogEntry)
    (h : ¬ dupHead msg ty l) : headsDistinct (⟨now, msg, ty⟩ :: l) := by
  cases l with
  | nil => trivial
  | cons e rest =>
    intro he
    exact h ⟨he.1.symm, he.2.symm⟩

/-- C5: `log_event` preserves the bounded-deque invariant of `logs`: when
the new entry duplicates the head in both message and type the list is
unchanged; otherwise the entry is prepended and, on overflow past 100, the
tail entry is dropped — so the length stays at most 100 and the entries at
positions 0 and 1 never agree in both message and type. -/
theorem c5_log_event (now msg ty : String) (s : MonitorState)
    (hlen : s.logs.length ≤ 100) (hhd : headsDistinct s.logs) :
    (log_event now msg ty s).logs.length ≤ 100
    ∧ headsDistinct (log_event now msg ty s).logs
    ∧ (dupHead msg ty s.logs → (log_event now msg ty s).logs = s.logs)
    ∧ (¬ dupHead msg ty s.logs →
        (log_event now msg ty s).logs = (⟨now, msg, ty⟩ :: s.logs : List LogEntry).take 100) := by
  have hle : (log_event now msg ty s).logs = pushLog now msg ty s.logs := rfl
  rw [hle, pushLog_eq]
  by_cases hd : dupHead msg ty s.logs
  · rw [if_pos hd]
    exact ⟨hlen, hhd, fun _ => rfl, fun h => absurd hd h⟩
  · rw [if_neg hd]
    have hnd : headsDistinct (⟨now, msg, ty⟩ :: s.logs) := headsDistinct_cons now msg ty s.logs hd
    by_cases hl : (⟨now, msg, ty⟩ :: s.logs : List LogEntry).length > 100
    · rw [if_pos hl]
      have h101 : (⟨now, msg, ty⟩ :: s.logs : List LogEntry).length = 101 := by
        simp only [List.length_cons] at hl ⊢
        omega
      refine ⟨?_, headsDistinct_dropLast _ hnd, fun h => absurd h hd, fun _ => ?_⟩
      · rw [List.length_dropLast, h101]
      · rw [List.dropLast_eq_take, h101]
    · rw [if_neg hl]
      refine ⟨by omega, hnd, fun h => absurd h hd, fun _ => ?_⟩
      rw [List.take_of_length_le (by omega)]

/-- Witness for C5: logging into the empty initial log list. -/
theorem c5_log_event_witness :
    (log_event ("00:00:00") ("Low HR boundary hit: 42 bpm") ("ALERT") initState).logs =
      (⟨"00:00:00", "Low HR boundary hit: 42 bpm", "ALERT"⟩ :: initState.logs : List LogEntry).take 100 :=
  (c5_log_event ("00:00:00") ("Low HR boundary hit: 42 bpm") ("ALERT") initState (by decide)
    (by trivial)).2.2.2 (by decide)

lemma stop_monitoring_is_monitoring (date : String) (s : MonitorState) :
    (stop_monitoring date s).is_monitoring = false := by
  unfold stop_monitoring
  by_cases h : s.session_readings.isEmpty
  · rw [if_pos h]
  · rw [if_neg h]

lemma stop_monitoring_sessions_ne (date : String) (s : MonitorState)
    (h : s.session_readings ≠ []) :
    (stop_monitoring date s).history_sessions =
      s.history_sessions ++ [mkSessionSummary date s] := by
  unfold stop_monitoring
  rw [if_neg (by simpa using h)]

lemma stop_monitoring_sessions_nil (date : String) (s : MonitorState)
    (h : s.session_readings = []) :
    (stop_monitoring date s).history_sessions = s.history_sessions := by
  unfold stop_monitoring
  rw [if_pos (by simpa using h)]

/-- C6: `stop_monitoring` clears `is_monitoring`, appends a session summary
to `history_sessions` exactly when `session_readings` is non-empty, and
leaves `history_sessions` unchanged when the session recorded nothing. -/
theorem c6_stop_session (date : String) (s : MonitorState) :
    (stop_monitoring date s).is_monitoring = false
    ∧ (s.session_readings ≠ [] →
        (stop_monitoring date s).history_sessions =
          s.history_sessions ++ [mkSessionSummary date s])
    ∧ (s.session_readings = [] →
        (stop_monitoring date s).history_sessions = s.history_sessions) :=
  ⟨stop_monitoring_is_monitoring date s,
    stop_monitoring_sessions_ne date s,
    stop_monitoring_sessions_nil date s⟩

/-- Witness for C6: stopping the fresh state (no readings yet) clears the
flag and appends nothing. -/
theorem c6_stop_session_witness :
    (stop_monitoring ("2026-10-12 00:00") initState).is_monitoring = false
    ∧ (stop_monitoring ("2026-10-12 00:00") initState).history_sessions =
        initState.history_sessions :=
  ⟨(c6_stop_session ("2026-10-12 00:00") initState).1,
    (c6_stop_session ("2026-10-12 00:00") initState).2.2 rfl⟩

lemma formatSec2_length : ∀ n : Fin 60, (formatSec2 n.1).length = 2 := by decide

/-- C7: the summary built at stop time renders `total_time` as
minutes `total_time / 60`, a colon, and the two-digit seconds
`total_time % 60`; its average is the session average rounded to one
decimal place; its extremes are the session extremes truncated to
integers; and the activity name is recorded unchanged. -/
theorem c7_session_summary (date : String) (s : MonitorState)
    (h : s.session_readings ≠ []) :
    (stop_monitoring date s).history_sessions =
        s.history_sessions ++ [mkSessionSummary date s]
    ∧ (mkSessionSummary date s).duration =
        toString (s.total_time / 60) ++ ":" ++ formatSec2 (s.total_time % 60)
    ∧ (formatSec2 (s.total_time % 60)).length = 2
    ∧ (mkSessionSummary date s).avg_bpm = round1 s.avg_bpm
    ∧ (mkSessionSummary date s).max_bpm = pyInt s.max_bpm
    ∧ (mkSessionSummary date s).min_bpm = pyInt s.min_bpm
    ∧ (mkSessionSummary date s).activity = s.activity
    ∧ (mkSessionSummary date s).date = date :=
  ⟨stop_monitoring_sessions_ne date s h,
    rfl,
    formatSec2_length ⟨s.total_time % 60, Nat.mod_lt _ (by norm_num)⟩,
    rfl, rfl, rfl, rfl, rfl⟩

/-- Witness for C7 on a mid-session state with 65 elapsed seconds. -/
theorem c7_session_summary_witness :
    (stop_monitoring ("2026-10-12 00:01") sStop).history_sessions =
        sStop.history_sessions ++ [mkSessionSummary ("2026-10-12 00:01") sStop]
    ∧ (mkSessionSummary ("2026-10-12 00:01") sStop).duration =
        toString (sStop.total_time / 60) ++ ":" ++ formatSec2 (sStop.total_time % 60)
    ∧ (formatSec2 (sStop.total_time % 60)).length = 2 :=
  ⟨((c7_session_summary ("2026-10-12 00:01") sStop) (by decide)).1,
    ((c7_session_summary ("2026-10-12 00:01") sStop) (by decide)).2.1,
    ((c7_session_summary ("2026-10-12 00:01") sStop) (by decide)).2.2.1⟩

/-- C8: evaluating the code at the failing input.  `start_monitoring` has
no guard on `is_monitoring`: issued while a session is already running with
one stepping task active, it is accepted (not a no-op, not rejected), it
launches a second stepping task (`page.run_task(run_simulation)` runs
unconditionally under the activity guard), and it wipes the in-progress
session data. -/
theorem c8_reentrant_start :
    c8State.is_monitoring = true
    ∧ (startMonitoringTasks c8State 1).2 = 2
    ∧ (startMonitoringTasks c8State 1).1.is_monitoring = true
    ∧ (startMonitoringTasks c8State 1).1.session_readings = []
    ∧ c8State.session_readings = [100] :=
  ⟨rfl, rfl, rfl, rfl, rfl⟩

lemma runSteps_is_monitoring (p : Profile) (ds : List Draws) :
    ∀ s : MonitorState, (runSteps p s ds).is_monitoring = s.is_monitoring := by
  induction ds with
  | nil => intro s; rfl
  | cons d ds ih =>
    intro s
    simp only [runSteps]
    rw [ih, stepState_is_monitoring]

/-- C9: an unexpected exception raised at any point of the stepping loop is
caught at the loop boundary — the loop returns normally with the
`"Simulation Error: ..."` diagnostic instead of propagating — no further
inputs are consumed, and `is_monitoring` is left unchanged: it is still
`true` after the loop dies. -/
theorem c9_fault_handling (p : Profile) (s : MonitorState) (msg : String)
    (ds : List Draws) (rest : List StepInput) (h : s.is_monitoring = true) :
    runSimulation p s (ds.map StepInput.ok ++ StepInput.fault msg :: rest) =
      (runSteps p s ds, some ("Simulation Error: " ++ msg))
    ∧ (runSteps p s ds).is_monitoring = true := by
  constructor
  · induction ds generalizing s with
    | nil =>
      simp only [List.map_nil, List.nil_append, runSimulation, runSteps, h, if_true]
    | cons d ds ih =>
      simp only [List.map_cons, List.cons_append, runSimulation, runSteps, h, if_true]
      exact ih (stepState p d s) (by rw [stepState_is_monitoring, h])
  · rw [runSteps_is_monitoring, h]

/-- Witness for C9: a fault on the very first tick of a freshly started
Resting session. -/
theorem c9_fault_handling_witness :
    runSimulation (activity_profiles ("Resting")) sRest [StepInput.fault ("boom")] =
      (runSteps (activity_profiles ("Resting")) sRest [], some ("Simulation Error: " ++ "boom"))
    ∧ (runSteps (activity_profiles ("Resting")) sRest []).is_monitoring = true :=
  c9_fault_handling (activity_profiles ("Resting")) sRest ("boom") [] [] rfl

/-- C10: `start_monitoring` resets `min_bpm`, `max_bpm`, `avg_bpm`,
`total_time`, `session_readings`, `history`, `time_counter` and `logs` and
raises `is_monitoring`, but does not touch `heart_rate`: each new session
smooths from the previous session's final value, and the very first
session starts from the initial 72.0. -/
theorem c10_start_keeps_heart_rate (s : MonitorState) (h : s.activity ≠ "") :
    (start_monitoring s).heart_rate = s.heart_rate
    ∧ (start_monitoring s).min_bpm = 999
    ∧ (start_monitoring s).max_bpm = 0
    ∧ (start_monitoring s).avg_bpm = 0
    ∧ (start_monitoring s).total_time = 0
    ∧ (start_monitoring s).session_readings = []
    ∧ (start_monitoring s).history = []
    ∧ (start_monitoring s).time_counter = 0
    ∧ (start_monitoring s).logs = []
    ∧ (start_monitoring s).is_monitoring = true
    ∧ initState.heart_rate = 72 := by
  unfold start_monitoring
  rw [if_neg h]
  exact ⟨rfl, rfl, rfl, rfl, rfl, rfl, rfl, rfl, rfl, rfl, rfl⟩

/-- Witness for C10: starting a Swimming session from a state whose live
signal sits at 123.45. -/
theorem c10_start_keeps_heart_rate_witness :
    (start_monitoring { initState with activity := "Swimming", heart_rate := 12345/100 }).heart_rate =
      ({ initState with activity := "Swimming", heart_rate := 12345/100 } : MonitorState).heart_rate
    ∧ (start_monitoring { initState with activity := "Swimming", heart_rate := 12345/100 }).min_bpm = 999
    ∧ initState.heart_rate = 72 :=
  ⟨(c10_start_keeps_heart_rate { initState with activity := "Swimming", heart_rate := 12345/100 }
      (by decide)).1,
    (c10_start_keeps_heart_rate { initState with activity := "Swimming", heart_rate := 12345/100 }
      (by decide)).2.1,
    (c10_start_keeps_heart_rate { initState with activity := "Swimming", heart_rate := 12345/100 }
      (by decide)).2.2.2.2.2.2.2.2.2.2⟩
